import Mathlib

/-!
Shallow embedding of `src/windmill_enhanced.cpp` (Enhanced Windmill
Simulation).  Simulation state is modelled exactly as the source lays it
out: the global mode flags and the two static members of class
`Windmill` form a `Globals` record, each entity class becomes a
structure whose `update` method is translated statement by statement,
the `Scene` container holds the master entity list, and the GLUT
keyboard handler becomes a function on `Globals × Scene`.  C++ `float`
arithmetic is modelled over `ℚ`; every value the claims touch
(multiples of 0.1 and 0.5, coordinates below a few hundred) is exactly
representable in `float`, so the rational model tracks the source.
`rand()` is modelled as an oracle stream `ℕ → ℕ` consumed index by
index, with glibc's `RAND_MAX = 2147483647`.
-/

namespace WindmillSim

/-- The global mode flags (`isDay`, `isPaused`, `animateCelestial`,
lines 55-57 of the source) together with the two static data members of
class `Windmill` (`Windmill::selectedWindmill`, line 386, and
`Windmill::windmillCount`, line 385).  All of them are process-wide
mutable state, so the embedding threads them through every operation
that reads or writes them. -/
structure Globals where
  isDay : Bool
  isPaused : Bool
  animateCelestial : Bool
  selectedWindmill : ℤ
  windmillCount : ℤ
  deriving Repr, DecidableEq

/-- Process-start values: `isDay = true`, `isPaused = false`,
`animateCelestial = true`, `Windmill::selectedWindmill = 1`,
`Windmill::windmillCount = 0`. -/
def initialGlobals : Globals :=
  { isDay := true
    isPaused := false
    animateCelestial := true
    selectedWindmill := 1
    windmillCount := 0 }

/-- `struct Color` (lines 60-64). -/
structure Color where
  r : ℚ
  g : ℚ
  b : ℚ
  deriving Repr, DecidableEq

/-- glibc value of `RAND_MAX`. -/
def RAND_MAX : ℕ := 2147483647

/-- `randomFloat` (lines 108-110):
`min + rand() / (RAND_MAX / (max - min))`, with the `rand()` result
supplied as the oracle value `r`. -/
def randomFloat (mn mx : ℚ) (r : ℕ) : ℚ :=
  mn + (r : ℚ) / ((RAND_MAX : ℚ) / (mx - mn))

/-- Class `Cloud` (lines 118-155): the inherited `Drawable` fields
`x`, `y`, `visible` plus the private members `speed` and `size`. -/
structure Cloud where
  x : ℚ
  y : ℚ
  visible : Bool
  speed : ℚ
  size : ℚ
  deriving Repr, DecidableEq

/-- `Cloud::update` (lines 140-150).  Takes the global pause flag, the
`rand()` oracle stream and the next unconsumed oracle index `k`;
returns the updated cloud together with the next oracle index
(`rand()` is called exactly once, and only on the wrap branch). -/
def Cloud.update (isPaused : Bool) (rnd : ℕ → ℕ) (k : ℕ) (c : Cloud) :
    Cloud × ℕ :=
  if isPaused then (c, k)
  else
    let x' := c.x + c.speed
    if x' > 450 then
      ({ c with x := -450, y := randomFloat 150 280 (rnd k) }, k + 1)
    else
      ({ c with x := x' }, k)

/-- Class `CelestialBody` (lines 162-203): inherited `Drawable` fields
plus `radius`, `angle` (the animation phase) and `color`. -/
structure CelestialBody where
  x : ℚ
  y : ℚ
  visible : Bool
  radius : ℚ
  angle : ℚ
  color : Color
  deriving Repr, DecidableEq

/-- `CelestialBody::update` (lines 197-202): no-op when paused or when
celestial animation is disabled; otherwise the phase advances by `0.3`
and is reset to exactly `0` once it reaches `360`. -/
def CelestialBody.update (g : Globals) (cb : CelestialBody) :
    CelestialBody :=
  if g.isPaused || !g.animateCelestial then cb
  else
    let a := cb.angle + 0.3
    { cb with angle := if a ≥ 360 then 0 else a }

/-- Class `Windmill` (lines 210-382): the inherited `Drawable` fields
plus the private members of the class.  `numBlades` is an `int` in the
source; the program only ever constructs windmills with 4 blades, so
`ℕ` is used to index the blade-drawing loop directly. -/
structure Windmill where
  x : ℚ
  y : ℚ
  visible : Bool
  bladeAngle : ℚ
  rotationSpeed : ℚ
  isRotating : Bool
  towerWidth : ℚ
  towerHeight : ℚ
  bladeLength : ℚ
  numBlades : ℕ
  id : ℤ
  deriving Repr, DecidableEq

/-- The `Windmill` constructor (lines 230-243): initialises
`bladeAngle = 0`, `rotationSpeed = 2.0`, `isRotating = true`, then
increments the static `windmillCount` and assigns the incremented
counter as this windmill's `id`. -/
def Windmill.create (g : Globals) (posX posY tWidth tHeight bLength : ℚ)
    (blades : ℕ) : Globals × Windmill :=
  let count := g.windmillCount + 1
  ({ g with windmillCount := count },
   { x := posX
     y := posY
     visible := true
     bladeAngle := 0
     rotationSpeed := 2
     isRotating := true
     towerWidth := tWidth
     towerHeight := tHeight
     bladeLength := bLength
     numBlades := blades
     id := count })

/-- The `Windmill` destructor (lines 246-248): decrements the static
`windmillCount`. -/
def Windmill.destroy (g : Globals) : Globals :=
  { g with windmillCount := g.windmillCount - 1 }

/-- `Windmill::update` (lines 357-362): no-op when paused or stopped;
otherwise the blade angle advances by `rotationSpeed` and `360` is
subtracted once it reaches `360`. -/
def Windmill.update (g : Globals) (w : Windmill) : Windmill :=
  if g.isPaused || !w.isRotating then w
  else
    let a := w.bladeAngle + w.rotationSpeed
    { w with bladeAngle := if a ≥ 360 then a - 360 else a }

/-- `Windmill::increaseSpeed` (lines 366-369). -/
def Windmill.increaseSpeed (w : Windmill) : Windmill :=
  let s := w.rotationSpeed + 0.5
  { w with rotationSpeed := if s > 15 then 15 else s }

/-- `Windmill::decreaseSpeed` (lines 370-373). -/
def Windmill.decreaseSpeed (w : Windmill) : Windmill :=
  let s := w.rotationSpeed - 0.5
  { w with rotationSpeed := if s < 0.5 then 0.5 else s }

/-- `Windmill::toggleRotation` (line 365). -/
def Windmill.toggleRotation (w : Windmill) : Windmill :=
  { w with isRotating := !w.isRotating }

/-- A call to one of the two speed mutators. -/
inductive SpeedOp where
  | inc
  | dec
  deriving Repr, DecidableEq

/-- Apply a sequence of `increaseSpeed` / `decreaseSpeed` calls to a
windmill, in order. -/
def applySpeedOps (w : Windmill) (ops : List SpeedOp) : Windmill :=
  ops.foldl
    (fun w op =>
      match op with
      | SpeedOp.inc => w.increaseSpeed
      | SpeedOp.dec => w.decreaseSpeed)
    w

/-- One element of the scene's master `objects` vector: the closed set
of concrete `Drawable` subclasses. -/
inductive Entity where
  | cloud : Cloud → Entity
  | windmill : Windmill → Entity
  | celestial : CelestialBody → Entity
  deriving Repr, DecidableEq

/-- Virtual dispatch of `update()` over the master sequence element
(lines 435-439 call `obj->update()` on every pointer).  The `rand()`
oracle index is threaded: only a wrapping cloud consumes a value. -/
def Entity.update (g : Globals) (rnd : ℕ → ℕ) (k : ℕ) :
    Entity → Entity × ℕ
  | Entity.cloud c =>
      let p := Cloud.update g.isPaused rnd k c
      (Entity.cloud p.1, p.2)
  | Entity.windmill w => (Entity.windmill (Windmill.update g w), k)
  | Entity.celestial cb => (Entity.celestial (CelestialBody.update g cb), k)

/-- Class `Scene` (lines 392-453).  The C++ object keeps, besides the
master `objects` vector, two alias vectors `windmills` and `clouds`
holding pointers into the same objects: they are pushed in lockstep by
`addWindmill` / `addCloud` and emptied together by `clear()`, so their
contents are always exactly the windmill- and cloud-tagged members of
`objects`, in insertion order.  The embedding represents the aliases by
the derived views `getWindmills` / `getClouds` below, which coincide
with the vectors' contents at every reachable state.  The
`celestialBody` pointer is write-only in the source (set by
`setCelestialBody`, nulled by `clear`, never dereferenced), so the
embedding stores the value it pointed at when set; only its
presence/absence is observable. -/
structure Scene where
  objects : List Entity
  celestialBody : Option CelestialBody
  deriving Repr, DecidableEq

/-- The `Scene` constructor (lines 400-402): empty vectors, null
celestial-body pointer. -/
def Scene.new : Scene :=
  { objects := [], celestialBody := none }

/-- `Scene::addWindmill` (lines 414-417). -/
def Scene.addWindmill (s : Scene) (w : Windmill) : Scene :=
  { s with objects := s.objects ++ [Entity.windmill w] }

/-- `Scene::addCloud` (lines 419-422). -/
def Scene.addCloud (s : Scene) (c : Cloud) : Scene :=
  { s with objects := s.objects ++ [Entity.cloud c] }

/-- `Scene::setCelestialBody` (lines 424-427). -/
def Scene.setCelestialBody (s : Scene) (cb : CelestialBody) : Scene :=
  { objects := s.objects ++ [Entity.celestial cb], celestialBody := some cb }

/-- Contents of the `windmills` alias vector (`getWindmills`,
line 441): the windmill members of `objects` in insertion order. -/
def Scene.getWindmills (s : Scene) : List Windmill :=
  s.objects.filterMap fun e =>
    match e with
    | Entity.windmill w => some w
    | _ => none

/-- Contents of the `clouds` alias vector (`getClouds`, line 442). -/
def Scene.getClouds (s : Scene) : List Cloud :=
  s.objects.filterMap fun e =>
    match e with
    | Entity.cloud c => some c
    | _ => none

/-- `Scene::updateAll` (lines 435-439): `update()` on every owned
entity in insertion order, threading the `rand()` oracle index. -/
def Scene.updateAll (g : Globals) (rnd : ℕ → ℕ) (s : Scene) : Scene :=
  { s with
    objects :=
      (s.objects.foldl
        (fun acc e =>
          let p := Entity.update g rnd acc.2 e
          (acc.1 ++ [p.1], p.2))
        (([] : List Entity), 0)).1 }

/-- `Scene::clear` (lines 444-452): `delete`s every owned entity — each
`Windmill` destructor decrements the static `windmillCount`, the other
destructors touch no modelled state — then empties all three vectors
and nulls the celestial-body pointer. -/
def Scene.clear (g : Globals) (s : Scene) : Globals × Scene :=
  (s.getWindmills.foldl (fun g _ => Windmill.destroy g) g, Scene.new)

/-- Apply `f` to the `i`-th windmill of the master sequence (0-based
position within the windmill view).  This is the effect of mutating
through the `windmills` alias vector, e.g.
`windmills[sel - 1]->increaseSpeed()`. -/
def modifyNthWindmill (i : ℕ) (f : Windmill → Windmill) :
    List Entity → List Entity
  | [] => []
  | Entity.windmill w :: rest =>
      if i = 0 then Entity.windmill (f w) :: rest
      else Entity.windmill w :: modifyNthWindmill (i - 1) f rest
  | e :: rest => e :: modifyNthWindmill i f rest

/-- `initScene` (lines 661-678): three windmills, three clouds, one
celestial body, in that insertion order.  (`srand(time(NULL))` only
seeds the oracle and has no modelled effect.) -/
def initScene (g : Globals) : Globals × Scene :=
  let p1 := Windmill.create g (-250) (-200) 30 120 80 4
  let p2 := Windmill.create p1.1 100 (-220) 35 130 90 4
  let p3 := Windmill.create p2.1 350 (-210) 28 110 75 4
  let s := ((Scene.new.addWindmill p1.2).addWindmill p2.2).addWindmill p3.2
  let s := s.addCloud { x := -300, y := 220, visible := true, speed := 0.3, size := 25 }
  let s := s.addCloud { x := 0, y := 250, visible := true, speed := 0.25, size := 30 }
  let s := s.addCloud { x := 250, y := 200, visible := true, speed := 0.35, size := 28 }
  let s := s.setCelestialBody
    { x := 350, y := 250, visible := true, radius := 30, angle := 0,
      color := { r := 1, g := 0.95, b := 0 } }
  (p3.1, s)

/-- Program state right after `init()` has run `initScene()`. -/
def initState : Globals × Scene := initScene initialGlobals

/-- The GLUT keyboard callback (lines 550-649), translated case by
case.  Each key press receives a fresh `rand()` oracle `rnd`, consumed
in call order (`rnd 0`, `rnd 1`, ...).  The quit keys (`q`, `Q`, ESC)
terminate the process; since no further state is observable after
`exit(0)`, they are modelled as the identity, like the default case. -/
def keyboard (g : Globals) (s : Scene) (rnd : ℕ → ℕ) (key : Char) :
    Globals × Scene :=
  if key = '1' ∨ key = '2' ∨ key = '3' ∨ key = '4' ∨ key = '5' then
    let selection : ℤ := (key.toNat : ℤ) - ('0'.toNat : ℤ)
    if 0 < selection ∧ selection ≤ (s.getWindmills.length : ℤ) then
      ({ g with selectedWindmill := selection }, s)
    else (g, s)
  else if key = '+' ∨ key = '=' then
    if s.getWindmills ≠ [] ∧ 0 < g.selectedWindmill ∧
        g.selectedWindmill ≤ (s.getWindmills.length : ℤ) then
      let objs := modifyNthWindmill (g.selectedWindmill - 1).toNat
        Windmill.increaseSpeed s.objects
      (g, { s with objects := objs })
    else (g, s)
  else if key = '-' ∨ key = '_' then
    if s.getWindmills ≠ [] ∧ 0 < g.selectedWindmill ∧
        g.selectedWindmill ≤ (s.getWindmills.length : ℤ) then
      let objs := modifyNthWindmill (g.selectedWindmill - 1).toNat
        Windmill.decreaseSpeed s.objects
      (g, { s with objects := objs })
    else (g, s)
  else if key = 'd' ∨ key = 'D' then
    ({ g with isDay := true }, s)
  else if key = 'n' ∨ key = 'N' then
    ({ g with isDay := false }, s)
  else if key = 'c' ∨ key = 'C' then
    let cloudX := randomFloat (-450) 450 (rnd 0)
    let cloudY := randomFloat 150 280 (rnd 1)
    let cloudSpeed := randomFloat 0.2 0.5 (rnd 2)
    (g, s.addCloud
      { x := cloudX, y := cloudY, visible := true, speed := cloudSpeed, size := 25 })
  else if key = 'w' ∨ key = 'W' then
    let windmillX := randomFloat (-400) 400 (rnd 0)
    let windmillY := randomFloat (-300) (-180) (rnd 1)
    let p := Windmill.create g windmillX windmillY 30 120 80 4
    (p.1, s.addWindmill p.2)
  else if key = 's' ∨ key = 'S' then
    ({ g with animateCelestial := !g.animateCelestial }, s)
  else if key = 'p' ∨ key = 'P' then
    ({ g with isPaused := !g.isPaused }, s)
  else if key = 'r' ∨ key = 'R' then
    let p := Scene.clear g s
    ({ p.1 with selectedWindmill := 1 }, p.2)
  else (g, s)

/-- A fixed `rand()` oracle for concrete runs. -/
def zeroRand : ℕ → ℕ := fun _ => 0

/-- One primitive command issued to the abstract draw surface, mirroring
the GL calls of the source.  `vertexPolar cx cy dist a` stands for
`glVertex2f(cx + dist*cos(a), cy + dist*sin(a))`: the source computes
these coordinates with `cosf`/`sinf` (of rational angle arguments built
from its literal `3.14159`), and the embedding leaves the trigonometric
evaluation to the draw surface, matching the spec's "fill a disc
approximated by N line segments" primitive. -/
inductive DrawCmd where
  | clearColor : ℚ → ℚ → ℚ → ℚ → DrawCmd
  | clearBuffer : DrawCmd
  | color : ℚ → ℚ → ℚ → DrawCmd
  | vertex : ℚ → ℚ → DrawCmd
  | vertexPolar : ℚ → ℚ → ℚ → ℚ → DrawCmd
  | beginPoly : DrawCmd
  | beginLines : DrawCmd
  | beginLineLoop : DrawCmd
  | endPrim : DrawCmd
  | pushMatrix : DrawCmd
  | popMatrix : DrawCmd
  | translate : ℚ → ℚ → DrawCmd
  | rotate : ℚ → DrawCmd
  | lineWidth : ℚ → DrawCmd
  deriving Repr, DecidableEq

/-- `drawCircle` (lines 97-106): a filled polygon of `segments`
vertices at angle `2*3.14159*i/segments` and distance `radius` around
`(cx, cy)`. -/
def drawCircle (cx cy radius : ℚ) (segments : ℕ) : List DrawCmd :=
  DrawCmd.beginPoly ::
    ((List.range segments).map fun i =>
      DrawCmd.vertexPolar cx cy radius (2 * 3.14159 * (i : ℚ) / (segments : ℚ)))
    ++ [DrawCmd.endPrim]

/-- `Cloud::draw` (lines 127-138): no-op when invisible, otherwise five
white overlapping discs.  Returned as (unchanged state, commands): the
method writes no field, which the translation makes explicit. -/
def Cloud.draw (c : Cloud) : Cloud × List DrawCmd :=
  if !c.visible then (c, [])
  else
    (c, DrawCmd.color 1 1 1 ::
      (drawCircle c.x c.y c.size 100 ++
       drawCircle (c.x + c.size * 0.8) (c.y + c.size * 0.3) (c.size * 0.9) 100 ++
       drawCircle (c.x - c.size * 0.8) (c.y + c.size * 0.3) (c.size * 0.7) 100 ++
       drawCircle (c.x + c.size * 0.4) (c.y - c.size * 0.2) (c.size * 0.6) 100 ++
       drawCircle (c.x - c.size * 0.4) (c.y - c.size * 0.2) (c.size * 0.6) 100))

/-- `CelestialBody::draw` (lines 172-195): no-op when invisible;
twelve radiating ray segments only in day mode, then the body disc. -/
def CelestialBody.draw (g : Globals) (cb : CelestialBody) :
    CelestialBody × List DrawCmd :=
  if !cb.visible then (cb, [])
  else
    let rays :=
      if g.isDay then
        ((List.range 12).map fun i =>
          let rayAngle := (360 / 12) * (i : ℚ) * 3.14159 / 180
          [DrawCmd.beginLines,
           DrawCmd.vertexPolar cb.x cb.y (cb.radius + 5) rayAngle,
           DrawCmd.vertexPolar cb.x cb.y (cb.radius + 15) rayAngle,
           DrawCmd.endPrim]).flatten
      else []
    (cb, DrawCmd.color cb.color.r cb.color.g cb.color.b ::
      (rays ++ drawCircle cb.x cb.y cb.radius 100))

/-- `Windmill::drawTower` (lines 251-271). -/
def Windmill.drawTower (w : Windmill) : List DrawCmd :=
  [DrawCmd.color 0.55 0.27 0.07,
   DrawCmd.beginPoly,
   DrawCmd.vertex (w.x - w.towerWidth / 2) w.y,
   DrawCmd.vertex (w.x + w.towerWidth / 2) w.y,
   DrawCmd.vertex (w.x + w.towerWidth / 3) (w.y + w.towerHeight),
   DrawCmd.vertex (w.x - w.towerWidth / 3) (w.y + w.towerHeight),
   DrawCmd.endPrim,
   DrawCmd.color 0.3 0.15 0.05,
   DrawCmd.beginPoly,
   DrawCmd.vertex (w.x - 8) w.y,
   DrawCmd.vertex (w.x + 8) w.y,
   DrawCmd.vertex (w.x + 8) (w.y + 30),
   DrawCmd.vertex (w.x - 8) (w.y + 30),
   DrawCmd.endPrim]

/-- `Windmill::drawBlades` (lines 273-310): the whole assembly is
rotated by `bladeAngle` about the hub, each blade additionally by
`i * 360/numBlades`; blade vertices are in the rotated local frame. -/
def Windmill.drawBlades (w : Windmill) : List DrawCmd :=
  let angleStep : ℚ := 360 / (w.numBlades : ℚ)
  [DrawCmd.pushMatrix,
   DrawCmd.translate w.x (w.y + w.towerHeight),
   DrawCmd.rotate w.bladeAngle] ++
  ((List.range w.numBlades).map fun i =>
    [DrawCmd.pushMatrix,
     DrawCmd.rotate ((i : ℚ) * angleStep),
     DrawCmd.color 0.95 0.95 0.90,
     DrawCmd.beginPoly,
     DrawCmd.vertex 0 0,
     DrawCmd.vertex (-5) (w.bladeLength * 0.3),
     DrawCmd.vertex (-3) w.bladeLength,
     DrawCmd.vertex 3 w.bladeLength,
     DrawCmd.vertex 5 (w.bladeLength * 0.3),
     DrawCmd.endPrim,
     DrawCmd.color 0.7 0.7 0.65,
     DrawCmd.beginLineLoop,
     DrawCmd.vertex 0 0,
     DrawCmd.vertex (-5) (w.bladeLength * 0.3),
     DrawCmd.vertex (-3) w.bladeLength,
     DrawCmd.vertex 3 w.bladeLength,
     DrawCmd.vertex 5 (w.bladeLength * 0.3),
     DrawCmd.endPrim,
     DrawCmd.popMatrix]).flatten ++
  [DrawCmd.popMatrix]

/-- `Windmill::drawHub` (lines 312-323). -/
def Windmill.drawHub (w : Windmill) : List DrawCmd :=
  DrawCmd.color 0.3 0.3 0.3 ::
    (drawCircle w.x (w.y + w.towerHeight) 15 100 ++
     DrawCmd.color 0.2 0.2 0.2 ::
       drawCircle w.x (w.y + w.towerHeight) 8 100)

/-- `Windmill::drawSelectionIndicator` (lines 325-345): a yellow ring
of 50 segments around the hub, only when the globally selected windmill
index equals this windmill's `id`. -/
def Windmill.drawSelectionIndicator (g : Globals) (w : Windmill) :
    List DrawCmd :=
  if g.selectedWindmill = w.id then
    [DrawCmd.color 1 1 0, DrawCmd.lineWidth 3, DrawCmd.beginLineLoop] ++
    ((List.range 50).map fun i =>
      DrawCmd.vertexPolar w.x (w.y + w.towerHeight) 100
        (2 * 3.14159 * (i : ℚ) / 50)) ++
    [DrawCmd.endPrim, DrawCmd.lineWidth 1]
  else []

/-- `Windmill::draw` (lines 348-355): tower, blades, hub, selection
indicator, in that order; no field is written. -/
def Windmill.draw (g : Globals) (w : Windmill) : Windmill × List DrawCmd :=
  if !w.visible then (w, [])
  else
    (w, w.drawTower ++ w.drawBlades ++ w.drawHub ++
      w.drawSelectionIndicator g)

/-- Virtual dispatch of `draw()` (lines 429-433 call `obj->draw()`). -/
def Entity.draw (g : Globals) : Entity → Entity × List DrawCmd
  | Entity.cloud c =>
      let p := c.draw
      (Entity.cloud p.1, p.2)
  | Entity.windmill w =>
      let p := w.draw g
      (Entity.windmill p.1, p.2)
  | Entity.celestial cb =>
      let p := cb.draw g
      (Entity.celestial p.1, p.2)

/-- `Scene::drawAll` (lines 429-433): `draw()` on every owned entity in
insertion order, accumulating the issued commands and threading the
(unmodified) entity states back into the scene. -/
def Scene.drawAll (g : Globals) (s : Scene) :
    (Globals × Scene) × List DrawCmd :=
  let p := s.objects.foldl
    (fun acc e =>
      let q := Entity.draw g e
      (acc.1 ++ [q.1], acc.2 ++ q.2))
    (([] : List Entity), ([] : List DrawCmd))
  ((g, { s with objects := p.1 }), p.2)

/-- `drawBackground` (lines 459-482): sky clear color and ground quad,
both chosen from the day/night flag. -/
def drawBackground (g : Globals) : List DrawCmd :=
  (if g.isDay then [DrawCmd.clearColor 0.53 0.81 0.92 1]
   else [DrawCmd.clearColor 0.04 0.04 0.12 1]) ++
  [DrawCmd.clearBuffer] ++
  (if g.isDay then [DrawCmd.color 0.13 0.55 0.13]
   else [DrawCmd.color 0.08 0.23 0.08]) ++
  [DrawCmd.beginPoly,
   DrawCmd.vertex (-500) (-350),
   DrawCmd.vertex 500 (-350),
   DrawCmd.vertex 500 (-150),
   DrawCmd.vertex (-500) (-150),
   DrawCmd.endPrim]

/-- The `display` callback (lines 529-539): background, then
`scene->drawAll()`.  The HUD text overlay (`drawHUD`) is outside the
modelled core (the spec excludes text/HUD overlay rendering); it reads
state but writes none, like the rest of the pipeline. -/
def display (g : Globals) (s : Scene) : (Globals × Scene) × List DrawCmd :=
  let p := Scene.drawAll g s
  (p.1, drawBackground g ++ p.2)

/-- A run of `n` consecutive `Windmill` constructions with no
intervening destruction, started from globals `g`: the final globals
and the list of assigned identities in construction order. -/
def createRun : Globals → ℕ → Globals × List ℤ
  | g, 0 => (g, [])
  | g, n + 1 =>
    let p := Windmill.create g 0 0 30 120 80 4
    let q := createRun p.1 n
    (q.1, p.2.id :: q.2)

/-- The selection invariant asserted by the spec: the global selected
index is 0 (no selection) or the 1-based index of a currently-live
windmill of the scene. -/
def selectionValid (g : Globals) (s : Scene) : Prop :=
  g.selectedWindmill = 0 ∨
    (1 ≤ g.selectedWindmill ∧
      g.selectedWindmill ≤ (s.getWindmills.length : ℤ))

/-! ## Theorems -/

lemma increaseSpeed_eq_min (w : Windmill) :
    w.increaseSpeed.rotationSpeed = min (w.rotationSpeed + 0.5) 15 := by
  unfold Windmill.increaseSpeed
  by_cases h : w.rotationSpeed + 0.5 > 15
  · simp only [h, if_pos]
    exact (min_eq_right h.le).symm
  · simp only [h, if_neg, not_false_iff]
    exact (min_eq_left (le_of_not_lt h)).symm

lemma decreaseSpeed_eq_max (w : Windmill) :
    w.decreaseSpeed.rotationSpeed = max (w.rotationSpeed - 0.5) 0.5 := by
  unfold Windmill.decreaseSpeed
  by_cases h : w.rotationSpeed - 0.5 < 0.5
  · simp only [h, if_pos]
    exact (max_eq_right h.le).symm
  · simp only [h, if_neg, not_false_iff]
    exact (max_eq_left (le_of_not_lt h)).symm

lemma applySpeedOps_bounds (ops : List SpeedOp) (w : Windmill)
    (h1 : 0.5 ≤ w.rotationSpeed) (h2 : w.rotationSpeed ≤ 15) :
    0.5 ≤ (applySpeedOps w ops).rotationSpeed ∧
      (applySpeedOps w ops).rotationSpeed ≤ 15 := by
  induction ops generalizing w with
  | nil => exact ⟨h1, h2⟩
  | cons op rest ih =>
    have hstep : 0.5 ≤ (applySpeedOps w [op]).rotationSpeed ∧
        (applySpeedOps w [op]).rotationSpeed ≤ 15 := by
      cases op with
      | inc =>
        simp only [applySpeedOps, List.foldl, increaseSpeed_eq_min]
        constructor
        · exact le_min (by linarith) (by norm_num)
        · exact min_le_right _ _
      | dec =>
        simp only [applySpeedOps, List.foldl, decreaseSpeed_eq_max]
        constructor
        · exact le_max_right _ _
        · exact max_le (by linarith) (by norm_num)
    have hrec := ih (applySpeedOps w [op]) hstep.1 hstep.2
    simpa only [applySpeedOps, List.foldl] using hrec

/-- C3: a windmill's rotation speed starts at 2.0 on construction,
stays within [0.5, 15.0] under any sequence of `increaseSpeed` /
`decreaseSpeed` calls, and each call moves the speed by the fixed step
0.5 with silent clamping (characterised by min/max, total functions,
no error path). -/
theorem c3_speed_clamped (g : Globals) (px py tw th bl : ℚ) (nb : ℕ)
    (ops : List SpeedOp) (w : Windmill) :
    (Windmill.create g px py tw th bl nb).2.rotationSpeed = 2 ∧
    0.5 ≤ (applySpeedOps (Windmill.create g px py tw th bl nb).2 ops).rotationSpeed ∧
    (applySpeedOps (Windmill.create g px py tw th bl nb).2 ops).rotationSpeed ≤ 15 ∧
    w.increaseSpeed.rotationSpeed = min (w.rotationSpeed + 0.5) 15 ∧
    w.decreaseSpeed.rotationSpeed = max (w.rotationSpeed - 0.5) 0.5 := by
  have hb := applySpeedOps_bounds ops (Windmill.create g px py tw th bl nb).2
    (by norm_num [Windmill.create]) (by norm_num [Windmill.create])
  exact ⟨rfl, hb.1, hb.2, increaseSpeed_eq_min w, decreaseSpeed_eq_max w⟩

/-- C4: while the global pause flag is set, `update()` leaves every
mutable field of every entity (cloud, windmill, celestial body)
unchanged, and consumes no randomness. -/
theorem c4_paused_update_noop (g : Globals) (rnd : ℕ → ℕ) (k : ℕ)
    (e : Entity) (hp : g.isPaused = true) :
    Entity.update g rnd k e = (e, k) := by
  cases e <;>
    simp [Entity.update, Cloud.update, Windmill.update,
      CelestialBody.update, hp]

/-- Witness for C4 at a concrete paused state and concrete cloud. -/
theorem c4_paused_update_noop_witness :
    ({ initialGlobals with isPaused := true } : Globals).isPaused = true ∧
    Entity.update { initialGlobals with isPaused := true } zeroRand 0
        (Entity.cloud { x := 0, y := 200, visible := true, speed := 1, size := 25 }) =
      (Entity.cloud { x := 0, y := 200, visible := true, speed := 1, size := 25 }, 0) :=
  ⟨rfl, c4_paused_update_noop _ zeroRand 0 _ rfl⟩

/-- C5: a blade angle in [0, 360) stays in [0, 360) across a windmill
update tick for any rotation speed in [0.5, 15.0], an animation phase
in [0, 360) stays in [0, 360) across a celestial update tick, and the
windmill wrap is modular: blade angle 359 with per-tick increment 2
yields 1 after one tick, not 361. -/
theorem c5_angle_range (g : Globals) (w : Windmill) (cb : CelestialBody)
    (hw0 : 0 ≤ w.bladeAngle) (hw1 : w.bladeAngle < 360)
    (hs0 : 0.5 ≤ w.rotationSpeed) (hs1 : w.rotationSpeed ≤ 15)
    (hc0 : 0 ≤ cb.angle) (hc1 : cb.angle < 360) :
    (0 ≤ (Windmill.update g w).bladeAngle ∧
      (Windmill.update g w).bladeAngle < 360) ∧
    (0 ≤ (CelestialBody.update g cb).angle ∧
      (CelestialBody.update g cb).angle < 360) ∧
    (Windmill.update initialGlobals
      { x := 0, y := 0, visible := true, bladeAngle := 359,
        rotationSpeed := 2, isRotating := true, towerWidth := 30,
        towerHeight := 120, bladeLength := 80, numBlades := 4,
        id := 1 }).bladeAngle = 1 := by
  refine ⟨?_, ?_, by norm_num [Windmill.update, initialGlobals]⟩
  · unfold Windmill.update
    dsimp only
    split_ifs with hP hA
    · exact ⟨hw0, hw1⟩
    · dsimp only
      constructor <;> linarith
    · dsimp only
      constructor <;> linarith [lt_of_not_ge hA]
  · unfold CelestialBody.update
    dsimp only
    split_ifs with hP hA
    · exact ⟨hc0, hc1⟩
    · dsimp only
      norm_num
    · dsimp only
      constructor <;> linarith [lt_of_not_ge hA]

/-- Witness for C5 at a concrete windmill and celestial body. -/
theorem c5_angle_range_witness :
    ((0 : ℚ) ≤ 100 ∧ (100 : ℚ) < 360 ∧ (0.5 : ℚ) ≤ 2 ∧ (2 : ℚ) ≤ 15 ∧
      (0 : ℚ) ≤ 50 ∧ (50 : ℚ) < 360) ∧
    ((0 ≤ (Windmill.update initialGlobals
        { x := 0, y := 0, visible := true, bladeAngle := 100,
          rotationSpeed := 2, isRotating := true, towerWidth := 30,
          towerHeight := 120, bladeLength := 80, numBlades := 4,
          id := 1 }).bladeAngle ∧
      (Windmill.update initialGlobals
        { x := 0, y := 0, visible := true, bladeAngle := 100,
          rotationSpeed := 2, isRotating := true, towerWidth := 30,
          towerHeight := 120, bladeLength := 80, numBlades := 4,
          id := 1 }).bladeAngle < 360) ∧
    (0 ≤ (CelestialBody.update initialGlobals
        { x := 350, y := 250, visible := true, radius := 30, angle := 50,
          color := { r := 1, g := 0.95, b := 0 } }).angle ∧
      (CelestialBody.update initialGlobals
        { x := 350, y := 250, visible := true, radius := 30, angle := 50,
          color := { r := 1, g := 0.95, b := 0 } }).angle < 360) ∧
    (Windmill.update initialGlobals
      { x := 0, y := 0, visible := true, bladeAngle := 359,
        rotationSpeed := 2, isRotating := true, towerWidth := 30,
        towerHeight := 120, bladeLength := 80, numBlades := 4,
        id := 1 }).bladeAngle = 1) :=
  ⟨by norm_num,
   c5_angle_range initialGlobals
     { x := 0, y := 0, visible := true, bladeAngle := 100,
       rotationSpeed := 2, isRotating := true, towerWidth := 30,
       towerHeight := 120, bladeLength := 80, numBlades := 4, id := 1 }
     { x := 350, y := 250, visible := true, radius := 30, angle := 50,
       color := { r := 1, g := 0.95, b := 0 } }
     (by norm_num) (by norm_num) (by norm_num) (by norm_num)
     (by norm_num) (by norm_num)⟩

/-- C10: when an unpaused, animation-enabled celestial tick takes the
phase to at least 360, the phase is reset to exactly 0 and the excess
over 360 is discarded, whereas a windmill tick that takes the blade
angle to at least 360 subtracts 360 and keeps the excess; at phase
359.8 the celestial body ends at 0 while a windmill with blade angle
359.8 and speed 0.5 ends at 0.3. -/
theorem c10_celestial_reset_vs_windmill_wrap (g : Globals)
    (cb : CelestialBody) (w : Windmill)
    (hp : g.isPaused = false) (ha : g.animateCelestial = true)
    (hcb : (360 : ℚ) ≤ cb.angle + 0.3)
    (hr : w.isRotating = true)
    (hw : (360 : ℚ) ≤ w.bladeAngle + w.rotationSpeed) :
    (CelestialBody.update g cb).angle = 0 ∧
    (Windmill.update g w).bladeAngle =
      w.bladeAngle + w.rotationSpeed - 360 ∧
    (CelestialBody.update initialGlobals
      { x := 350, y := 250, visible := true, radius := 30,
        angle := 359.8, color := { r := 1, g := 0.95, b := 0 } }).angle = 0 ∧
    (Windmill.update initialGlobals
      { x := 0, y := 0, visible := true, bladeAngle := 359.8,
        rotationSpeed := 0.5, isRotating := true, towerWidth := 30,
        towerHeight := 120, bladeLength := 80, numBlades := 4,
        id := 1 }).bladeAngle = 0.3 := by
  refine ⟨?_, ?_, by norm_num [CelestialBody.update, initialGlobals],
    by norm_num [Windmill.update, initialGlobals]⟩
  · simp only [CelestialBody.update, hp, ha]
    norm_num
    intro hcon
    linarith
  · simp only [Windmill.update, hp, hr]
    norm_num
    intro hcon
    linarith

/-- Witness for C10 at a concrete unpaused state, celestial body at
phase 359.8 and windmill at blade angle 359.8 with speed 0.5. -/
theorem c10_celestial_reset_vs_windmill_wrap_witness :
    (initialGlobals.isPaused = false ∧
      initialGlobals.animateCelestial = true ∧
      (360 : ℚ) ≤ 359.8 + 0.3 ∧ (360 : ℚ) ≤ 359.8 + 0.5) ∧
    ((CelestialBody.update initialGlobals
      { x := 350, y := 250, visible := true, radius := 30,
        angle := 359.8, color := { r := 1, g := 0.95, b := 0 } }).angle = 0 ∧
    (Windmill.update initialGlobals
      { x := 0, y := 0, visible := true, bladeAngle := 359.8,
        rotationSpeed := 0.5, isRotating := true, towerWidth := 30,
        towerHeight := 120, bladeLength := 80, numBlades := 4,
        id := 1 }).bladeAngle = 359.8 + 0.5 - 360 ∧
      (CelestialBody.update initialGlobals
        { x := 350, y := 250, visible := true, radius := 30,
          angle := 359.8, color := { r := 1, g := 0.95, b := 0 } }).angle = 0 ∧
      (Windmill.update initialGlobals
        { x := 0, y := 0, visible := true, bladeAngle := 359.8,
          rotationSpeed := 0.5, isRotating := true, towerWidth := 30,
          towerHeight := 120, bladeLength := 80, numBlades := 4,
          id := 1 }).bladeAngle = 0.3) :=
  ⟨⟨rfl, rfl, by norm_num, by norm_num⟩,
   c10_celestial_reset_vs_windmill_wrap initialGlobals
     { x := 350, y := 250, visible := true, radius := 30,
       angle := 359.8, color := { r := 1, g := 0.95, b := 0 } }
     { x := 0, y := 0, visible := true, bladeAngle := 359.8,
       rotationSpeed := 0.5, isRotating := true, towerWidth := 30,
       towerHeight := 120, bladeLength := 80, numBlades := 4, id := 1 }
     rfl rfl (by norm_num) rfl (by norm_num)⟩

lemma randomFloat_band (r : ℕ) (hr : r ≤ RAND_MAX) :
    150 ≤ randomFloat 150 280 r ∧ randomFloat 150 280 r ≤ 280 := by
  unfold randomFloat RAND_MAX
  have h1 : (r : ℚ) ≤ 2147483647 := by exact_mod_cast hr
  have hpos : (0 : ℚ) < (2147483647 : ℚ) / (280 - 150) := by norm_num
  constructor
  · have h0 : 0 ≤ (r : ℚ) / ((2147483647 : ℚ) / (280 - 150)) :=
      div_nonneg (by positivity) hpos.le
    linarith
  · have h2 : (r : ℚ) / ((2147483647 : ℚ) / (280 - 150)) ≤ 130 := by
      rw [div_le_iff₀ hpos]
      calc (r : ℚ) ≤ 2147483647 := h1
        _ = 130 * ((2147483647 : ℚ) / (280 - 150)) := by norm_num
    linarith

/-- C6: an unpaused cloud tick advances `x` by `speed`; when the
advanced `x` exceeds the right boundary 450 the same tick sets `x` to
exactly the mirrored left boundary -450, redraws `y` within the band
[150, 280] from the fresh random draw, and consumes exactly one
`rand()` value; otherwise `y` is untouched and no randomness is
consumed.  A cloud at x = 490 with speed 5 advances to 495 > 450 and so
ends the tick at x = -450. -/
theorem c6_cloud_wrap (c : Cloud) (rnd : ℕ → ℕ) (k : ℕ)
    (hr : rnd k ≤ RAND_MAX) :
    (c.x + c.speed > 450 →
      (Cloud.update false rnd k c).1.x = -450 ∧
      150 ≤ (Cloud.update false rnd k c).1.y ∧
      (Cloud.update false rnd k c).1.y ≤ 280 ∧
      (Cloud.update false rnd k c).2 = k + 1) ∧
    (¬ c.x + c.speed > 450 →
      (Cloud.update false rnd k c).1.x = c.x + c.speed ∧
      (Cloud.update false rnd k c).1.y = c.y ∧
      (Cloud.update false rnd k c).2 = k) ∧
    (Cloud.update false zeroRand 0
      { x := 490, y := 200, visible := true, speed := 5, size := 25 }).1.x
      = -450 := by
  refine ⟨?_, ?_, by norm_num [Cloud.update]⟩
  · intro h
    have hband := randomFloat_band (rnd k) hr
    simp only [Cloud.update, if_pos h, Bool.false_eq_true, if_false]
    exact ⟨trivial, hband.1, hband.2, trivial⟩
  · intro h
    simp only [Cloud.update, if_neg h, Bool.false_eq_true, if_false]
    exact ⟨trivial, trivial, trivial⟩

/-- Witness for C6 at a concrete cloud with the all-zero oracle. -/
theorem c6_cloud_wrap_witness :
    zeroRand 0 ≤ RAND_MAX ∧
    (Cloud.update false zeroRand 0
      { x := 490, y := 200, visible := true, speed := 5, size := 25 }).1.x
      = -450 :=
  ⟨by norm_num [zeroRand, RAND_MAX],
   (c6_cloud_wrap
     { x := 490, y := 200, visible := true, speed := 5, size := 25 }
     zeroRand 0 (by norm_num [zeroRand, RAND_MAX])).2.2⟩

/-- C7: a digit-key selection event whose 1-based index exceeds the
current number of windmills leaves the whole program state — in
particular the selected-windmill index — unchanged, with no error. -/
theorem c7_digit_out_of_range_noop (g : Globals) (s : Scene)
    (rnd : ℕ → ℕ) (d : Char)
    (hd : d ∈ ['0', '1', '2', '3', '4', '5', '6', '7', '8', '9'])
    (hgt : (s.getWindmills.length : ℤ) <
      (d.toNat : ℤ) - ('0'.toNat : ℤ)) :
    keyboard g s rnd d = (g, s) := by
  fin_cases hd <;>
  first
  | (simp only [keyboard]
     rw [if_pos (by decide)]
     split_ifs with h
     · exact absurd (lt_of_le_of_lt h.2 hgt) (lt_irrefl _)
     · rfl)
  | (simp only [keyboard]
     rw [if_neg (by decide), if_neg (by decide), if_neg (by decide),
       if_neg (by decide), if_neg (by decide), if_neg (by decide),
       if_neg (by decide), if_neg (by decide), if_neg (by decide),
       if_neg (by decide)])

/-- Witness for C7: pressing '4' with an empty scene (0 windmills)
changes nothing. -/
theorem c7_digit_out_of_range_noop_witness :
    ('4' ∈ ['0', '1', '2', '3', '4', '5', '6', '7', '8', '9'] ∧
      ((Scene.new.getWindmills.length : ℤ) <
        ('4'.toNat : ℤ) - ('0'.toNat : ℤ))) ∧
    keyboard initialGlobals Scene.new zeroRand '4' =
      (initialGlobals, Scene.new) :=
  ⟨by decide,
   c7_digit_out_of_range_noop initialGlobals Scene.new zeroRand '4'
     (by decide) (by decide)⟩

/-- C8: `clear()` leaves the scene in exactly the empty state of a
freshly constructed `Scene` — empty master sequence, empty windmill
and cloud views, absent celestial-body reference — and a subsequent
`updateAll()` or `drawAll()` iterates over zero entities (the update
is the identity, the draw issues no commands) without crashing (both
operations are total functions of the model). -/
theorem c8_clear_empties (g g2 : Globals) (s : Scene) (rnd : ℕ → ℕ) :
    (Scene.clear g s).2 = Scene.new ∧
    (Scene.clear g s).2.objects = [] ∧
    (Scene.clear g s).2.getWindmills = [] ∧
    (Scene.clear g s).2.getClouds = [] ∧
    (Scene.clear g s).2.celestialBody = none ∧
    Scene.updateAll g2 rnd (Scene.clear g s).2 = (Scene.clear g s).2 ∧
    (Scene.drawAll g2 (Scene.clear g s).2).1.2 = (Scene.clear g s).2 ∧
    (Scene.drawAll g2 (Scene.clear g s).2).2 = [] :=
  ⟨rfl, rfl, rfl, rfl, rfl, rfl, rfl, rfl⟩

lemma Cloud.cloud_draw_fst (c : Cloud) : c.draw.1 = c := by
  unfold Cloud.draw
  split <;> rfl

lemma CelestialBody.celestial_draw_fst (g : Globals) (cb : CelestialBody) :
    (cb.draw g).1 = cb := by
  unfold CelestialBody.draw
  split <;> rfl

lemma Windmill.windmill_draw_fst (g : Globals) (w : Windmill) :
    (w.draw g).1 = w := by
  unfold Windmill.draw
  split <;> rfl

lemma Entity.entity_draw_fst (g : Globals) (e : Entity) :
    (Entity.draw g e).1 = e := by
  cases e with
  | cloud c => simp [Entity.draw, Cloud.cloud_draw_fst]
  | windmill w => simp [Entity.draw, Windmill.windmill_draw_fst]
  | celestial cb => simp [Entity.draw, CelestialBody.celestial_draw_fst]

lemma drawAll_foldl_fst (g : Globals) (objs : List Entity)
    (acc : List Entity) (cmds : List DrawCmd) :
    (objs.foldl
      (fun acc e =>
        let q := Entity.draw g e
        (acc.1 ++ [q.1], acc.2 ++ q.2))
      (acc, cmds)).1 = acc ++ objs := by
  induction objs generalizing acc cmds with
  | nil => simp
  | cons e rest ih =>
    simp only [List.foldl_cons]
    rw [ih, Entity.entity_draw_fst]
    simp

lemma Scene.drawAll_fst (g : Globals) (s : Scene) :
    (Scene.drawAll g s).1 = (g, s) := by
  unfold Scene.drawAll
  dsimp only
  rw [drawAll_foldl_fst]
  simp

/-- C9: drawing is state-pure — `drawAll()` (and the `display` render
entry point built on it) returns every entity field and every global
mode flag unchanged, only emitting draw-surface commands, so iterating
the render step any number of times between update ticks leaves the
simulation state fixed. -/
theorem c9_draw_pure (g : Globals) (s : Scene) (n : ℕ) :
    (Scene.drawAll g s).1 = (g, s) ∧
    (display g s).1 = (g, s) ∧
    (fun p : Globals × Scene => (display p.1 p.2).1)^[n] (g, s) = (g, s) := by
  have hd : ∀ g s, (display g s).1 = ((g : Globals), (s : Scene)) := by
    intro g s
    unfold display
    dsimp only
    exact Scene.drawAll_fst g s
  refine ⟨Scene.drawAll_fst g s, hd g s, ?_⟩
  exact Function.iterate_fixed (hd g s) n

/-- C1 counterexample: the identity counter is decremented by every
windmill destruction, so identities are reused.  Concretely: the
initial scene's windmills carry identities [1, 2, 3]; pressing 'r'
(which clears the scene, destroying all three) and then 'w' constructs
a windmill whose identity is 1 — equal to an identity assigned before
the clear, contradicting the claim. -/
theorem c1_identity_reuse_counterexample :
    initState.2.getWindmills.map Windmill.id = [1, 2, 3] ∧
    ((keyboard (keyboard initState.1 initState.2 zeroRand 'r').1
        (keyboard initState.1 initState.2 zeroRand 'r').2
        zeroRand 'w').2.getWindmills.map Windmill.id) = [1] ∧
    (1 : ℤ) ∈ initState.2.getWindmills.map Windmill.id := by
  decide

lemma createRun_ids (n : ℕ) (g : Globals) :
    (createRun g n).2 =
      (List.range n).map fun i : ℕ => g.windmillCount + 1 + (i : ℤ) := by
  induction n generalizing g with
  | zero => simp [createRun]
  | succ n ih =>
    have hid : (Windmill.create g 0 0 30 120 80 4).2.id =
        g.windmillCount + 1 := rfl
    have hcount : (Windmill.create g 0 0 30 120 80 4).1.windmillCount =
        g.windmillCount + 1 := rfl
    simp only [createRun, ih, hid, hcount, List.range_succ_eq_map,
      List.map_cons, List.map_map]
    congr 1
    · norm_num
    · apply List.map_congr_left
      intro i _
      simp only [Function.comp_apply]
      push_cast
      ring

/-- C1 amended: identities are monotonically assigned from the live
counter, so within any run of constructions with no intervening
destruction the identities are strictly increasing — each later
construction's identity differs from (exceeds) every earlier one.
(After destructions the counter has been decremented and identities
are reused, per the counterexample.) -/
theorem c1_identity_monotone_amended (g : Globals) (n : ℕ) :
    ((createRun g n).2).Pairwise (· < ·) := by
  rw [createRun_ids]
  refine List.Pairwise.map _ ?_ (List.pairwise_lt_range n)
  intro a b hab
  have hc : (a : ℤ) < (b : ℤ) := by exact_mod_cast hab
  linarith

/-- C2 is violated by the code: at program start the selection
invariant holds (index 1 with three live windmills), but pressing the
reset key 'r' clears the scene to zero windmills while setting the
selected index to 1, which is neither 0 nor the index of a live
windmill — the promised re-initialization (`init()`) is never invoked
after a key press. -/
theorem c2_reset_selection_bug :
    selectionValid initState.1 initState.2 ∧
    (keyboard initState.1 initState.2 zeroRand 'r').1.selectedWindmill = 1 ∧
    (keyboard initState.1 initState.2 zeroRand 'r').2.getWindmills.length = 0 ∧
    ¬ selectionValid (keyboard initState.1 initState.2 zeroRand 'r').1
        (keyboard initState.1 initState.2 zeroRand 'r').2 := by
  unfold selectionValid
  decide

end WindmillSim
